import Mathlib

/-!
Shallow embedding of the AI-Wallpaper backend (FastAPI + SQLAlchemy) in Lean 4.

Modelling conventions:
* Time is an abstract `Nat` tick (the code uses `datetime.utcnow()`); the
  15-minute code windows become `now + 15`.
* The database session is a pure value `DB` (lists of rows in insertion
  order); `query(...).filter(...).first()` becomes `List.find?`, an ORM
  in-place mutation of the first matching row becomes `updateFirst`,
  `db.add` appends, `db.delete` becomes `List.eraseP`.  An HTTPException
  raised before `db.commit()` leaves the store unchanged, so every error
  path returns the input `DB`.
* External collaborators are parameters: the bcrypt context is a pair of
  functions (`pwdHash`, `verify`), JWT encoding is `accessTok : String →
  String` applied to the `sub` claim, `jose.jwt.decode` is an abstract
  `String → Except JWTError TokenPayload`, the Google ID-token verifier
  yields `Option GoogleClaims` (`none` models `ValueError`), and fresh
  UUIDs (refresh-token values, file names, row ids) are parameters.
* Python truthiness of optional strings (`not user.hashed_password`)
  treats both `None` and `""` as falsy, mirrored by `truthyOptStr`.
-/

deriving instance DecidableEq for Except

/-- `AuthProviderEnum` from `models.py`: authentication provider options. -/
inductive AuthProviderEnum
  | «local»
  | google
deriving DecidableEq, Repr

/-- `WallpaperStatusEnum` from `models.py`: status options for generation jobs. -/
inductive WallpaperStatusEnum
  | pending
  | completed
  | failed
deriving DecidableEq, Repr

/-- A row of the `users` table (`models.py`, class `User`). -/
structure User where
  id : Nat
  username : String
  email : String
  hashed_password : Option String
  is_verified : Bool
  provider : AuthProviderEnum
  first_name : Option String := none
  last_name : Option String := none
  phone_number : Option String := none
  verification_code : Option Nat := none
  verification_expires_at : Option Nat := none
  reset_code : Option Nat := none
  reset_expires_at : Option Nat := none
  profile_image_url : Option String := none
deriving DecidableEq, Repr

/-- A row of the `refresh_tokens` table (`models.py`, class `RefreshToken`). -/
structure RefreshToken where
  user_id : Nat
  token : String
  expires_at : Nat
deriving DecidableEq, Repr

/-- A row of the `wallpapers` table (`models.py`, class `Wallpaper`). -/
structure Wallpaper where
  id : Nat
  user_id : Nat
  prompt : String
  size : String
  style : String
  image_url : Option String := none
  status : WallpaperStatusEnum := .pending
deriving DecidableEq, Repr

/-- The auth-relevant database state: `users` and `refresh_tokens` tables. -/
structure DB where
  users : List User
  tokens : List RefreshToken
deriving DecidableEq, Repr

/-- The typed failures raised as `HTTPException` by the routes. -/
inductive AuthError
  | emailTaken
  | usernameTaken
  | userNotFound
  | invalidCredentials
  | providerMismatch
  | emailNotVerified
  | invalidOrExpiredCode
  | invalidRefreshToken
  | expiredRefreshToken
  | invalidGoogleToken
  | invalidIssuer
  | googleTokenMissingEmail
  | incorrectOldPassword
  | tokenExpired
  | tokenInvalid
  | invalidAuthToken
deriving DecidableEq, Repr

/-- `TokenResponse` from `schemas.py` (the constant `token_type` is elided). -/
structure TokenResponse where
  access_token : String
  refresh_token : String
deriving DecidableEq, Repr

/-- Python truthiness of `str | None`: `None` and `""` are falsy. -/
def truthyOptStr : Option String → Bool
  | none => false
  | some s => !(s == "")

/-- Python `str.lower()` (ASCII-adequate here), acting on the character
list so that it evaluates inside the kernel. -/
def pyLower (s : String) : String :=
  ⟨s.data.map Char.toLower⟩

/-- Python `str.strip()`: drop leading and trailing whitespace. -/
def pyStrip (s : String) : String :=
  ⟨((s.data.dropWhile Char.isWhitespace).reverse.dropWhile Char.isWhitespace).reverse⟩

/-- The `email.lower().strip()` normalization applied by every auth route. -/
def normalizeEmail (e : String) : String :=
  pyStrip (pyLower e)

/-- Replace the first element satisfying `p` by its image under `f`,
mirroring an ORM mutation of the row returned by `.filter(...).first()`. -/
def updateFirst (p : α → Bool) (f : α → α) : List α → List α
  | [] => []
  | x :: xs => if p x then f x :: xs else x :: updateFirst p f xs

/-- `hash_utils.verify_password`: `if not hashed: return False` (catching
both `None` and the empty string) before consulting the bcrypt context. -/
def verify_password (verify : String → String → Bool) (plain : String)
    (hashed : Option String) : Bool :=
  match hashed with
  | none => false
  | some h => if h = "" then false else verify plain h

/-- `register_user` (`auth_routes.py` lines 56-105).  `pwdHash` stands for
`hash_utils.hash_password`, `code` for the random 6-digit code, `now` for
`datetime.utcnow()`, `newId`/`picName` for the generated UUIDs. -/
def register_user (pwdHash : String → String) (username0 email0 password : String)
    (code : Nat) (now : Nat) (newId : Nat) (picName : String) (db : DB) :
    Except AuthError String × DB :=
  let username := pyStrip username0
  let email := normalizeEmail email0
  if (db.users.find? (fun u => u.email == email)).isSome then
    (.error .emailTaken, db)
  else if (db.users.find? (fun u => u.username == username)).isSome then
    (.error .usernameTaken, db)
  else
    let new_user : User :=
      { id := newId
        username := username
        email := email
        hashed_password := some (pwdHash password)
        is_verified := false
        provider := .«local»
        verification_code := some code
        verification_expires_at := some (now + 15)
        profile_image_url := some picName }
    (.ok ("User registered successfully. Please check your email for the 6-digit code."),
     { db with users := db.users ++ [new_user] })

/-- `verify_email` (`auth_routes.py` lines 112-134). -/
def verify_email (email0 : String) (code : Nat) (now : Nat) (db : DB) :
    Except AuthError String × DB :=
  let email := normalizeEmail email0
  match db.users.find? (fun u => u.email == email) with
  | none => (.error .userNotFound, db)
  | some user =>
    if user.is_verified then (.ok ("Email already verified"), db)
    else if user.verification_code != some code
        || user.verification_expires_at.isNone
        || (match user.verification_expires_at with
            | none => true
            | some exp => decide (now > exp)) then
      (.error .invalidOrExpiredCode, db)
    else
      let users2 := updateFirst (fun u => u.email == email)
        (fun u => { u with is_verified := true, verification_code := none,
                           verification_expires_at := none }) db.users
      (.ok ("Email verified successfully"), { db with users := users2 })

/-- `resend_verification_code` (`auth_routes.py` lines 145-171). -/
def resend_verification_code (email0 : String) (new_code : Nat) (now : Nat) (db : DB) :
    Except AuthError String × DB :=
  let email := normalizeEmail email0
  match db.users.find? (fun u => u.email == email) with
  | none => (.error .userNotFound, db)
  | some user =>
    if user.is_verified then (.ok ("Email is already verified"), db)
    else
      let users2 := updateFirst (fun u => u.email == email)
        (fun u => { u with verification_code := some new_code,
                           verification_expires_at := some (now + 15) }) db.users
      (.ok ("A new verification code has been sent to your email"), { db with users := users2 })

/-- Create-or-replace of the single refresh-token row of a user
(`auth_routes.py` lines 203-209 and 361-366): the existing row is mutated
in place when present, otherwise a new row is appended. -/
def replaceRefreshToken (tokens : List RefreshToken) (uid : Nat)
    (value : String) (expiresAt : Nat) : List RefreshToken :=
  match tokens.find? (fun t => t.user_id == uid) with
  | some _ =>
    updateFirst (fun t => t.user_id == uid)
      (fun t => { t with token := value, expires_at := expiresAt }) tokens
  | none => tokens ++ [{ user_id := uid, token := value, expires_at := expiresAt }]

/-- `login_user` (`auth_routes.py` lines 178-212).  Note the order of the
checks: the credential test (including `not user.hashed_password`) comes
before the provider test, which comes before the verification test.
`verify` is `pwd_context.verify`, `accessTok` maps the `sub` claim to the
encoded JWT, `refresh_value`/`expires_at` stand for the fresh UUID and
`get_refresh_expiry()`. -/
def login_user (verify : String → String → Bool) (accessTok : String → String)
    (email0 password : String) (refresh_value : String) (expires_at : Nat)
    (db : DB) : Except AuthError TokenResponse × DB :=
  let email := normalizeEmail email0
  match db.users.find? (fun u => u.email == email) with
  | none => (.error .invalidCredentials, db)
  | some user =>
    if !(truthyOptStr user.hashed_password)
        || !(verify_password verify password user.hashed_password) then
      (.error .invalidCredentials, db)
    else if user.provider != .«local» then
      (.error .providerMismatch, db)
    else if !user.is_verified then
      (.error .emailNotVerified, db)
    else
      (.ok { access_token := accessTok user.email, refresh_token := refresh_value },
       { db with tokens := replaceRefreshToken db.tokens user.id refresh_value expires_at })

/-- `refresh_access_token` (`auth_routes.py` lines 219-238): pure lookup,
no commit on any path, the same refresh-token value is returned. -/
def refresh_access_token (accessTok : String → String) (refresh_token : String)
    (now : Nat) (db : DB) : Except AuthError TokenResponse × DB :=
  match db.tokens.find? (fun t => t.token == refresh_token) with
  | none => (.error .invalidRefreshToken, db)
  | some rt =>
    if rt.expires_at < now then (.error .expiredRefreshToken, db)
    else
      match db.users.find? (fun u => u.id == rt.user_id) with
      | none => (.error .userNotFound, db)
      | some user =>
        (.ok { access_token := accessTok user.email, refresh_token := refresh_token }, db)

/-- `forgot_password` (`auth_routes.py` lines 244-271): here the provider
check runs right after the user lookup, before any password material is
touched; `hash_utils` is never consulted on this route. -/
def forgot_password (email0 : String) (reset_code : Nat) (now : Nat) (db : DB) :
    Except AuthError String × DB :=
  let email := normalizeEmail email0
  match db.users.find? (fun u => u.email == email) with
  | none => (.error .userNotFound, db)
  | some user =>
    if user.provider != .«local» then (.error .providerMismatch, db)
    else
      let users2 := updateFirst (fun u => u.email == email)
        (fun u => { u with reset_code := some reset_code,
                           reset_expires_at := some (now + 15) }) db.users
      (.ok ("Password reset code sent to your email"), { db with users := users2 })

/-- `reset_password` (`auth_routes.py` lines 278-303). -/
def reset_password (pwdHash : String → String) (email0 : String) (code : Nat)
    (password : String) (now : Nat) (db : DB) : Except AuthError String × DB :=
  let email := normalizeEmail email0
  match db.users.find? (fun u => u.email == email) with
  | none => (.error .userNotFound, db)
  | some user =>
    if user.provider != .«local» then (.error .providerMismatch, db)
    else if user.reset_code != some code
        || user.reset_expires_at.isNone
        || (match user.reset_expires_at with
            | none => true
            | some exp => decide (now > exp)) then
      (.error .invalidOrExpiredCode, db)
    else
      let users2 := updateFirst (fun u => u.email == email)
        (fun u => { u with hashed_password := some (pwdHash password),
                           reset_code := none, reset_expires_at := none }) db.users
      (.ok ("Password reset successful. You can now log in."), { db with users := users2 })

/-- The claims extracted by `id_token.verify_oauth2_token` on success. -/
structure GoogleClaims where
  iss : String
  email : String
deriving DecidableEq, Repr

/-- The probe loop of `google_sign_in` (`auth_routes.py` lines 335-340):
`candidate = base_username or "user"; suffix = 1; while taken(candidate):
candidate = f"{base_username}_{suffix}"; suffix += 1`.  The Python loop is
unbounded; `fuel` makes it structural, and `derive_username` supplies
`taken.length + 1` units, enough to reach the first free candidate (the
probed names `base_1, base_2, …` are pairwise distinct). -/
def probe_username (taken : List String) (base : String) :
    Nat → Nat → String → String
  | 0, _, candidate => candidate
  | fuel + 1, suffix, candidate =>
    if candidate ∈ taken then
      probe_username taken base fuel (suffix + 1) (base ++ "_" ++ Nat.repr suffix)
    else candidate

/-- Username derivation of federated auto-provisioning
(`auth_routes.py` lines 334-340), as a function of the stripped base name
and the set of already-taken usernames. -/
def derive_username (taken : List String) (base : String) : String :=
  probe_username taken base (taken.length + 1) 1 (if base = "" then ("user") else base)

/-- `google_sign_in` (`auth_routes.py` lines 310-373).  `claims = none`
models `ValueError` from the verifier (caught at line 372); `name0` and
`picture` are the request payload fields; `newId`, `refresh_value` and
`expires_at` stand for the generated UUIDs and expiry. -/
def google_sign_in (accessTok : String → String) (claims : Option GoogleClaims)
    (name0 picture : Option String) (newId : Nat) (refresh_value : String)
    (expires_at : Nat) (db : DB) : Except AuthError TokenResponse × DB :=
  match claims with
  | none => (.error .invalidGoogleToken, db)
  | some info =>
    if !(info.iss == "accounts.google.com" || info.iss == "https://accounts.google.com") then
      (.error .invalidIssuer, db)
    else
      let email := normalizeEmail info.email
      if email = "" then (.error .googleTokenMissingEmail, db)
      else
        match db.users.find? (fun u => u.email == email) with
        | some user =>
          if user.provider != .google then (.error .providerMismatch, db)
          else
            let tokens2 := replaceRefreshToken db.tokens user.id refresh_value expires_at
            (.ok { access_token := accessTok user.email, refresh_token := refresh_value },
             { db with tokens := tokens2 })
        | none =>
          let base_username := pyStrip (match name0 with
            | some s => if s = "" then ((email.splitOn ("@")).headD ("")) else s
            | none => (email.splitOn ("@")).headD (""))
          let candidate := derive_username (db.users.map (fun u => u.username)) base_username
          let user : User :=
            { id := newId
              username := candidate
              email := email
              hashed_password := none
              is_verified := true
              provider := .google
              profile_image_url := picture }
          let db2 : DB := { db with users := db.users ++ [user] }
          let tokens2 := replaceRefreshToken db2.tokens user.id refresh_value expires_at
          (.ok { access_token := accessTok user.email, refresh_token := refresh_value },
           { db2 with tokens := tokens2 })

/-- `logout_user` (`auth_routes.py` lines 380-392): deletes the matching
refresh-token row when present, reports success either way. -/
def logout_user (refresh_token : String) (db : DB) : Except AuthError String × DB :=
  match db.tokens.find? (fun t => t.token == refresh_token) with
  | none => (.ok ("Signed out successfully"), db)
  | some _ =>
    (.ok ("Signed out successfully"),
     { db with tokens := db.tokens.eraseP (fun t => t.token == refresh_token) })

/-- `update_password` (`user_routes.py` lines 117-135): the lookup key is
the raw `sub` claim of the access token (already stored lowercased). -/
def update_password (verify : String → String → Bool) (pwdHash : String → String)
    (sub old_password password : String) (db : DB) : Except AuthError String × DB :=
  match db.users.find? (fun u => u.email == sub) with
  | none => (.error .userNotFound, db)
  | some user =>
    if !(verify_password verify old_password user.hashed_password) then
      (.error .incorrectOldPassword, db)
    else
      let users2 := updateFirst (fun u => u.email == sub)
        (fun u => { u with hashed_password := some (pwdHash password) }) db.users
      (.ok ("Password updated successfully"), { db with users := users2 })

/-- `update_profile` (`user_routes.py` lines 51-80).  The field writes
before the username-conflict check are uncommitted ORM mutations; the
raised `HTTPException` aborts the session, so the error path leaves the
store unchanged. -/
def update_profile (sub : String) (first_name last_name phone_number username0 : Option String)
    (db : DB) : Except AuthError String × DB :=
  match db.users.find? (fun u => u.email == sub) with
  | none => (.error .userNotFound, db)
  | some user =>
    let upd := fun (u : User) =>
      let u1 := match first_name with
        | some s => { u with first_name := some (pyStrip s) }
        | none => u
      let u2 := match last_name with
        | some s => { u1 with last_name := some (pyStrip s) }
        | none => u1
      let u3 := match phone_number with
        | some s => { u2 with phone_number := some (pyStrip s) }
        | none => u2
      match username0 with
      | some s => { u3 with username := pyStrip s }
      | none => u3
    match username0 with
    | some s =>
      let new_username := pyStrip s
      if (db.users.find? (fun u => u.username == new_username && !(u.id == user.id))).isSome then
        (.error .usernameTaken, db)
      else
        let users2 := updateFirst (fun u => u.email == sub) upd db.users
        (.ok ("Profile updated successfully"), { db with users := users2 })
    | none =>
      let users2 := updateFirst (fun u => u.email == sub) upd db.users
      (.ok ("Profile updated successfully"), { db with users := users2 })

/-- `update_profile_picture` (`user_routes.py` lines 87-110); `filename`
is the generated UUID name. -/
def update_profile_picture (sub filename : String) (db : DB) :
    Except AuthError String × DB :=
  match db.users.find? (fun u => u.email == sub) with
  | none => (.error .userNotFound, db)
  | some _ =>
    let users2 := updateFirst (fun u => u.email == sub)
      (fun u => { u with profile_image_url := some filename }) db.users
    (.ok ("Profile picture updated successfully"), { db with users := users2 })

/-- Outcome of the `replicate_client.run` call (an external collaborator)
as observed by `generate_wallpaper_image`: a list holding a readable file
object, a falsy or non-list value, or a raised exception (provider error,
network error, malformed response, failing read or file write — anything
caught by the bare `except Exception`). -/
inductive ProviderOutcome
  | ok (bytes : List Nat)
  | notList
  | exn
deriving DecidableEq, Repr

/-- `generate_wallpaper_image` (`wallpaper_routes.py` lines 61-103), the
background generation step.  The dimension/style lookup feeds only the
provider call, which is abstracted as `outcome`; `freshName` is the
generated `f"{uuid4()}.webp"`; `store` is the content store (file name ↦
bytes).  The function is total: every outcome yields a state, no
exception propagates. -/
def generate_wallpaper_image (wallpaper_id : Nat) (outcome : ProviderOutcome)
    (freshName : String) (jobs : List Wallpaper) (store : List (String × List Nat)) :
    List Wallpaper × List (String × List Nat) :=
  match jobs.find? (fun w => w.id == wallpaper_id) with
  | none => (jobs, store)
  | some _ =>
    match outcome with
    | .exn =>
      (updateFirst (fun w => w.id == wallpaper_id)
        (fun w => { w with status := .failed }) jobs, store)
    | .notList =>
      (updateFirst (fun w => w.id == wallpaper_id)
        (fun w => { w with status := .failed }) jobs, store)
    | .ok bytes =>
      (updateFirst (fun w => w.id == wallpaper_id)
        (fun w => { w with image_url := some freshName, status := .completed }) jobs,
       store ++ [(freshName, bytes)])

/-- The decoded JWT payload as consumed by `get_current_user`: only the
`sub` claim matters (`none` models an absent key, `some ""` an empty one). -/
structure TokenPayload where
  sub : Option String
deriving DecidableEq, Repr

/-- The two exception classes handled by `_decode_token`
(`jwt_utils.py` lines 29-42). -/
inductive JWTError
  | expiredSignature
  | jwtError
deriving DecidableEq, Repr

/-- `get_current_user` (`jwt_utils.py` lines 100-112) composed with
`_decode_token`: `decode` abstracts `jose.jwt.decode` (signature and
expiry checks).  `payload.get("sub")` is falsy for a missing or empty
claim, yielding the 401 `Invalid authentication token`. -/
def get_current_user (decode : String → Except JWTError TokenPayload)
    (token : String) : Except AuthError String :=
  match decode token with
  | .error .expiredSignature => .error .tokenExpired
  | .error .jwtError => .error .tokenInvalid
  | .ok payload =>
    match payload.sub with
    | none => .error .invalidAuthToken
    | some email => if email = "" then .error .invalidAuthToken else .ok email

/-- One state transition of the auth store: any of the route handlers
run once, with arbitrary inputs and arbitrary external collaborators. -/
inductive Step : DB → DB → Prop
  | register (h : String → String) (u e p : String) (c n i : Nat) (pic : String) (db : DB) :
      Step db (register_user h u e p c n i pic db).2
  | verify (e : String) (c n : Nat) (db : DB) :
      Step db (verify_email e c n db).2
  | resend (e : String) (c n : Nat) (db : DB) :
      Step db (resend_verification_code e c n db).2
  | login (v : String → String → Bool) (a : String → String) (e p rv : String)
      (re : Nat) (db : DB) :
      Step db (login_user v a e p rv re db).2
  | refresh (a : String → String) (rt : String) (n : Nat) (db : DB) :
      Step db (refresh_access_token a rt n db).2
  | forgot (e : String) (c n : Nat) (db : DB) :
      Step db (forgot_password e c n db).2
  | reset (h : String → String) (e : String) (c : Nat) (p : String) (n : Nat) (db : DB) :
      Step db (reset_password h e c p n db).2
  | google (a : String → String) (cl : Option GoogleClaims) (nm pic : Option String)
      (i : Nat) (rv : String) (re : Nat) (db : DB) :
      Step db (google_sign_in a cl nm pic i rv re db).2
  | logout (rt : String) (db : DB) :
      Step db (logout_user rt db).2
  | updatePassword (v : String → String → Bool) (h : String → String)
      (s o p : String) (db : DB) :
      Step db (update_password v h s o p db).2
  | updateProfile (s : String) (f l ph u : Option String) (db : DB) :
      Step db (update_profile s f l ph u db).2
  | updatePicture (s f : String) (db : DB) :
      Step db (update_profile_picture s f db).2

/-- Number of refresh-token rows owned by user `uid`. -/
def tokenCount (db : DB) (uid : Nat) : Nat :=
  db.tokens.countP (fun t => t.user_id == uid)

/-- The `RefreshToken` invariant of `models.py` (unique `user_id`):
at most one live refresh token per user. -/
def atMostOneTokenPerUser (db : DB) : Prop :=
  ∀ uid : Nat, tokenCount db uid ≤ 1

/-! ### Basic lemmas about `updateFirst` and `replaceRefreshToken` -/

theorem updateFirst_length (p : α → Bool) (f : α → α) (l : List α) :
    (updateFirst p f l).length = l.length := by
  induction l with
  | nil => rfl
  | cons x xs ih =>
    simp only [updateFirst]
    split <;> simp [ih]

theorem countP_updateFirst (p q : α → Bool) (f : α → α)
    (h : ∀ x, q (f x) = q x) (l : List α) :
    (updateFirst p f l).countP q = l.countP q := by
  induction l with
  | nil => rfl
  | cons x xs ih =>
    simp only [updateFirst]
    split
    · simp [List.countP_cons, h]
    · simp [List.countP_cons, ih]

theorem find?_updateFirst (p : α → Bool) (f : α → α)
    (h : ∀ x, p x = true → p (f x) = true) (l : List α) :
    (updateFirst p f l).find? p = (l.find? p).map f := by
  induction l with
  | nil => rfl
  | cons x xs ih =>
    simp only [updateFirst]
    by_cases hx : p x = true
    · simp [hx, List.find?_cons, h x hx]
    · have hx2 : p x = false := by simpa using hx
      simp [hx2, List.find?_cons, ih]

theorem exists_updateFirst_of_find? (p : α → Bool) (f : α → α) (l : List α)
    (x : α) (h : l.find? p = some x) :
    f x ∈ updateFirst p f l := by
  induction l with
  | nil => simp at h
  | cons y ys ih =>
    simp only [updateFirst]
    by_cases hy : p y = true
    · rw [List.find?_cons_of_pos _ hy] at h
      cases h
      simp [hy]
    · have hy2 : p y = false := by simpa using hy
      rw [List.find?_cons_of_neg _ (by simp [hy2])] at h
      simp [hy2, ih h]

theorem mem_updateFirst_of_unique (p : α → Bool) (f : α → α) (l : List α)
    (hone : l.countP p ≤ 1) (t : α) (ht : t ∈ updateFirst p f l) :
    (t ∈ l ∧ p t = false) ∨ ∃ x ∈ l, p x = true ∧ t = f x := by
  induction l with
  | nil => simp [updateFirst] at ht
  | cons y ys ih =>
    simp only [updateFirst] at ht
    by_cases hy : p y = true
    · rw [if_pos hy] at ht
      rcases List.mem_cons.mp ht with h1 | h1
      · exact Or.inr ⟨y, List.mem_cons_self y ys, hy, h1⟩
      · have hzero : ys.countP p = 0 := by
          rw [List.countP_cons, if_pos hy] at hone
          omega
        have hpt : p t = false := by
          have := List.countP_eq_zero.mp hzero t h1
          simpa using this
        exact Or.inl ⟨List.mem_cons_of_mem y h1, hpt⟩
    · rw [if_neg hy] at ht
      rcases List.mem_cons.mp ht with h1 | h1
      · subst h1
        exact Or.inl ⟨List.mem_cons_self t ys, by simpa using hy⟩
      · have hone2 : ys.countP p ≤ 1 := by
          rw [List.countP_cons] at hone
          omega
        rcases ih hone2 h1 with ⟨h2, h3⟩ | ⟨x, hx, hpx, hfx⟩
        · exact Or.inl ⟨List.mem_cons_of_mem y h2, h3⟩
        · exact Or.inr ⟨x, List.mem_cons_of_mem y hx, hpx, hfx⟩

theorem tokenCount_replaceRefreshToken (tks : List RefreshToken) (uid : Nat)
    (v : String) (e : Nat) (uid2 : Nat)
    (hone : tks.countP (fun t => t.user_id == uid2) ≤ 1) :
    (replaceRefreshToken tks uid v e).countP (fun t => t.user_id == uid2) ≤ 1 := by
  unfold replaceRefreshToken
  cases hfind : tks.find? (fun t => t.user_id == uid) with
  | some rt =>
    rw [countP_updateFirst]
    · exact hone
    · intro x
      rfl
  | none =>
    rw [List.countP_append]
    by_cases huid : uid2 = uid
    · subst huid
      have hzero : tks.countP (fun t => t.user_id == uid2) = 0 := by
        apply List.countP_eq_zero.mpr
        intro t ht
        exact List.find?_eq_none.mp hfind t ht
      simp [hzero, List.countP_cons]
    · have huid2 : ((uid : Nat) == uid2) = false := by
        simp only [beq_eq_false_iff_ne, ne_eq]
        omega
      simp only [List.countP_cons, List.countP_nil]
      simp [huid2]
      omega

theorem length_replaceRefreshToken_of_found (tks : List RefreshToken) (uid : Nat)
    (v : String) (e : Nat) (rt : RefreshToken)
    (hfind : tks.find? (fun t => t.user_id == uid) = some rt) :
    (replaceRefreshToken tks uid v e).length = tks.length := by
  unfold replaceRefreshToken
  rw [hfind]
  exact updateFirst_length _ _ _

theorem exists_replaceRefreshToken (tks : List RefreshToken) (uid : Nat)
    (v : String) (e : Nat) :
    ∃ t ∈ replaceRefreshToken tks uid v e, t.user_id = uid ∧ t.token = v := by
  unfold replaceRefreshToken
  cases hfind : tks.find? (fun t => t.user_id == uid) with
  | some rt =>
    refine ⟨{ rt with token := v, expires_at := e }, ?_, ?_, rfl⟩
    · exact exists_updateFirst_of_find? _ _ _ _ hfind
    · have := List.find?_some hfind
      simpa using this
  | none =>
    exact ⟨{ user_id := uid, token := v, expires_at := e }, by simp, rfl, rfl⟩

theorem mem_replaceRefreshToken (tks : List RefreshToken) (uid : Nat)
    (v : String) (e : Nat)
    (hone : tks.countP (fun t => t.user_id == uid) ≤ 1)
    (t : RefreshToken) (ht : t ∈ replaceRefreshToken tks uid v e) :
    (t ∈ tks ∧ t.user_id ≠ uid) ∨ (t.user_id = uid ∧ t.token = v ∧ t.expires_at = e) := by
  unfold replaceRefreshToken at ht
  cases hfind : tks.find? (fun t => t.user_id == uid) with
  | some rt =>
    rw [hfind] at ht
    rcases mem_updateFirst_of_unique _ _ _ hone t ht with ⟨h1, h2⟩ | ⟨x, hx, hpx, hfx⟩
    · exact Or.inl ⟨h1, by simpa using h2⟩
    · subst hfx
      exact Or.inr ⟨by simpa using hpx, rfl, rfl⟩
  | none =>
    rw [hfind] at ht
    rcases List.mem_append.mp ht with h1 | h1
    · have := List.find?_eq_none.mp hfind t h1
      exact Or.inl ⟨h1, by simpa using this⟩
    · simp at h1
      subst h1
      exact Or.inr ⟨rfl, rfl, rfl⟩

/-! ### Which operations touch the refresh-token table -/

theorem tokens_register_user (h : String → String) (u e p : String) (c n i : Nat)
    (pic : String) (db : DB) :
    (register_user h u e p c n i pic db).2.tokens = db.tokens := by
  unfold register_user
  dsimp only
  split
  · rfl
  · split <;> rfl

theorem tokens_verify_email (e : String) (c n : Nat) (db : DB) :
    (verify_email e c n db).2.tokens = db.tokens := by
  unfold verify_email
  dsimp only
  split
  · rfl
  · split
    · rfl
    · split <;> rfl

theorem tokens_resend_code (e : String) (c n : Nat) (db : DB) :
    (resend_verification_code e c n db).2.tokens = db.tokens := by
  unfold resend_verification_code
  dsimp only
  split
  · rfl
  · split <;> rfl

theorem tokens_forgot_password (e : String) (c n : Nat) (db : DB) :
    (forgot_password e c n db).2.tokens = db.tokens := by
  unfold forgot_password
  dsimp only
  split
  · rfl
  · split <;> rfl

theorem tokens_reset_password (h : String → String) (e : String) (c : Nat)
    (p : String) (n : Nat) (db : DB) :
    (reset_password h e c p n db).2.tokens = db.tokens := by
  unfold reset_password
  dsimp only
  split
  · rfl
  · split
    · rfl
    · split <;> rfl

theorem tokens_update_password (v : String → String → Bool) (h : String → String)
    (s o p : String) (db : DB) :
    (update_password v h s o p db).2.tokens = db.tokens := by
  unfold update_password
  dsimp only
  split
  · rfl
  · split <;> rfl

theorem tokens_update_profile (s : String) (f l ph u : Option String) (db : DB) :
    (update_profile s f l ph u db).2.tokens = db.tokens := by
  unfold update_profile
  dsimp only
  split
  · rfl
  · split
    · split <;> rfl
    · rfl

theorem tokens_update_picture (s f : String) (db : DB) :
    (update_profile_picture s f db).2.tokens = db.tokens := by
  unfold update_profile_picture
  split <;> rfl

theorem refresh_state_eq (a : String → String) (rt : String) (n : Nat) (db : DB) :
    (refresh_access_token a rt n db).2 = db := by
  unfold refresh_access_token
  split
  · rfl
  · split
    · rfl
    · split <;> rfl

theorem tokens_login_user (v : String → String → Bool) (a : String → String)
    (e p rv : String) (re : Nat) (db : DB) :
    (login_user v a e p rv re db).2.tokens = db.tokens ∨
    ∃ uid, (login_user v a e p rv re db).2.tokens = replaceRefreshToken db.tokens uid rv re := by
  unfold login_user
  dsimp only
  split
  · exact Or.inl rfl
  · split
    · exact Or.inl rfl
    · split
      · exact Or.inl rfl
      · split
        · exact Or.inl rfl
        · exact Or.inr ⟨_, rfl⟩

theorem tokens_google_sign_in (a : String → String) (cl : Option GoogleClaims)
    (nm pic : Option String) (i : Nat) (rv : String) (re : Nat) (db : DB) :
    (google_sign_in a cl nm pic i rv re db).2.tokens = db.tokens ∨
    ∃ uid, (google_sign_in a cl nm pic i rv re db).2.tokens
      = replaceRefreshToken db.tokens uid rv re := by
  unfold google_sign_in
  dsimp only
  split
  · exact Or.inl rfl
  · split
    · exact Or.inl rfl
    · split
      · exact Or.inl rfl
      · split
        · split
          · exact Or.inl rfl
          · exact Or.inr ⟨_, rfl⟩
        · exact Or.inr ⟨_, rfl⟩

theorem tokens_logout_user (rt : String) (db : DB) :
    (logout_user rt db).2.tokens = db.tokens ∨
    (logout_user rt db).2.tokens = db.tokens.eraseP (fun t => t.token == rt) := by
  unfold logout_user
  split
  · exact Or.inl rfl
  · exact Or.inr rfl

/-- Every single route transition preserves the one-refresh-token-per-user
invariant. -/
theorem step_preserves_atMostOneToken (db db2 : DB) (hstep : Step db db2)
    (hinv : atMostOneTokenPerUser db) : atMostOneTokenPerUser db2 := by
  intro uid
  unfold atMostOneTokenPerUser tokenCount at *
  cases hstep with
  | register h u e p c n i pic db => rw [tokens_register_user]; exact hinv uid
  | verify e c n db => rw [tokens_verify_email]; exact hinv uid
  | resend e c n db => rw [tokens_resend_code]; exact hinv uid
  | login v a e p rv re db =>
    rcases tokens_login_user v a e p rv re db with h1 | ⟨uid2, h1⟩
    · rw [h1]; exact hinv uid
    · rw [h1]; exact tokenCount_replaceRefreshToken _ _ _ _ _ (hinv uid)
  | refresh a rt n db => rw [refresh_state_eq]; exact hinv uid
  | forgot e c n db => rw [tokens_forgot_password]; exact hinv uid
  | reset h e c p n db => rw [tokens_reset_password]; exact hinv uid
  | google a cl nm pic i rv re db =>
    rcases tokens_google_sign_in a cl nm pic i rv re db with h1 | ⟨uid2, h1⟩
    · rw [h1]; exact hinv uid
    · rw [h1]; exact tokenCount_replaceRefreshToken _ _ _ _ _ (hinv uid)
  | logout rt db =>
    rcases tokens_logout_user rt db with h1 | h1
    · rw [h1]; exact hinv uid
    · rw [h1]
      exact le_trans ((db.tokens.eraseP_sublist).countP_le _) (hinv uid)
  | updatePassword v h s o p db => rw [tokens_update_password]; exact hinv uid
  | updateProfile s f l ph u db => rw [tokens_update_profile]; exact hinv uid
  | updatePicture s f db => rw [tokens_update_picture]; exact hinv uid

/-- The invariant holds after any sequence of route transitions. -/
theorem steps_preserve_atMostOneToken (db db2 : DB)
    (hsteps : Relation.ReflTransGen Step db db2)
    (hinv : atMostOneTokenPerUser db) : atMostOneTokenPerUser db2 := by
  induction hsteps with
  | refl => exact hinv
  | tail _ hbc ih => exact step_preserves_atMostOneToken _ _ hbc ih

theorem users_login_user (v : String → String → Bool) (a : String → String)
    (e p rv : String) (re : Nat) (db : DB) :
    (login_user v a e p rv re db).2.users = db.users := by
  unfold login_user
  dsimp only
  split
  · rfl
  · split
    · rfl
    · split
      · rfl
      · split <;> rfl

/-- Successful password login: all checks pass and the refresh-token row
of the user is created or replaced with the fresh value. -/
theorem login_success (verify : String → String → Bool) (a : String → String)
    (e p rv : String) (re : Nat) (db : DB) (u : User) (hp : String)
    (hfind : db.users.find? (fun x => x.email == normalizeEmail e) = some u)
    (hhp : u.hashed_password = some hp) (hne : hp ≠ "")
    (hverify : verify p hp = true)
    (hprov : u.provider = .«local») (hver : u.is_verified = true) :
    login_user verify a e p rv re db =
      (.ok { access_token := a u.email, refresh_token := rv },
       { db with tokens := replaceRefreshToken db.tokens u.id rv re }) := by
  unfold login_user
  dsimp only
  rw [hfind]
  simp [truthyOptStr, verify_password, hhp, hne, hverify, hprov, hver]

/-- Login against a user whose stored password hash is `NULL` fails the
credential check (`not user.hashed_password`) before the provider check,
whatever the bcrypt verifier would say. -/
theorem login_none_password (verify : String → String → Bool) (a : String → String)
    (e p rv : String) (re : Nat) (db : DB) (u : User)
    (hfind : db.users.find? (fun x => x.email == normalizeEmail e) = some u)
    (hhp : u.hashed_password = none) :
    login_user verify a e p rv re db = (.error .invalidCredentials, db) := by
  unfold login_user
  dsimp only
  rw [hfind]
  simp [truthyOptStr, hhp]

/-- `forgot_password` on a non-local account fails with the
Google-Sign-In message right after the user lookup. -/
theorem forgot_password_google (e : String) (c n : Nat) (db : DB) (u : User)
    (hfind : db.users.find? (fun x => x.email == normalizeEmail e) = some u)
    (hprov : u.provider = .google) :
    forgot_password e c n db = (.error .providerMismatch, db) := by
  unfold forgot_password
  dsimp only
  rw [hfind]
  simp [hprov]

/-! ### `Nat.repr` is injective (needed for the username probe loop) -/

theorem digitChar_inj_of_lt : ∀ a : Nat, a < 10 → ∀ b : Nat, b < 10 →
    Nat.digitChar a = Nat.digitChar b → a = b := by decide

theorem map_digitChar_inj : ∀ l1 l2 : List Nat, (∀ x ∈ l1, x < 10) →
    (∀ x ∈ l2, x < 10) → l1.map Nat.digitChar = l2.map Nat.digitChar → l1 = l2 := by
  intro l1
  induction l1 with
  | nil =>
    intro l2 _ _ h
    cases l2 with
    | nil => rfl
    | cons y ys => simp at h
  | cons x xs ih =>
    intro l2 h1 h2 h
    cases l2 with
    | nil => simp at h
    | cons y ys =>
      simp only [List.map_cons, List.cons.injEq] at h
      obtain ⟨hxy, hrest⟩ := h
      have hx := h1 x (List.mem_cons_self x xs)
      have hy := h2 y (List.mem_cons_self y ys)
      rw [digitChar_inj_of_lt x hx y hy hxy,
        ih ys (fun z hz => h1 z (List.mem_cons_of_mem x hz))
          (fun z hz => h2 z (List.mem_cons_of_mem y hz)) hrest]

theorem toDigitsCore_eq_digits (n : Nat) : ∀ (fuel : Nat) (acc : List Char), n < fuel →
    Nat.toDigitsCore 10 fuel n acc =
      (if n = 0 then [Nat.digitChar 0]
       else ((Nat.digits 10 n).map Nat.digitChar).reverse) ++ acc := by
  induction n using Nat.strongRecOn with
  | ind n ih =>
    intro fuel acc hlt
    cases fuel with
    | zero => omega
    | succ f =>
      simp only [Nat.toDigitsCore]
      by_cases hdiv : n / 10 = 0
      · have hn10 : n < 10 := by omega
        rw [if_pos hdiv]
        by_cases hn : n = 0
        · subst hn
          simp
        · rw [if_neg hn, Nat.digits_of_lt 10 n hn hn10, Nat.mod_eq_of_lt hn10]
          simp
      · have hnpos : 0 < n := by
          rcases Nat.eq_zero_or_pos n with h0 | h0
          · subst h0
            simp at hdiv
          · exact h0
        have hn : n ≠ 0 := Nat.pos_iff_ne_zero.mp hnpos
        have hdivlt : n / 10 < n := Nat.div_lt_self hnpos (by norm_num)
        rw [if_neg hdiv, ih (n / 10) hdivlt f _ (by omega), if_neg hdiv,
          Nat.digits_def' (by norm_num : (1 : Nat) < 10) hnpos, if_neg hn]
        simp

theorem nat_repr_injective : Function.Injective Nat.repr := by
  intro m n h
  unfold Nat.repr Nat.toDigits at h
  rw [toDigitsCore_eq_digits m (m + 1) [] (Nat.lt_succ_self m),
    toDigitsCore_eq_digits n (n + 1) [] (Nat.lt_succ_self n)] at h
  have h2 := congrArg String.data h
  simp only [List.asString, List.append_nil] at h2
  have hlt1 : ∀ x ∈ Nat.digits 10 m, x < 10 :=
    fun x hx => Nat.digits_lt_base (by norm_num) hx
  have hlt2 : ∀ x ∈ Nat.digits 10 n, x < 10 :=
    fun x hx => Nat.digits_lt_base (by norm_num) hx
  by_cases hm : m = 0 <;> by_cases hn : n = 0
  · omega
  · exfalso
    rw [if_pos hm, if_neg hn] at h2
    have h3 : (Nat.digits 10 n).map Nat.digitChar = [Nat.digitChar 0] := by
      have := congrArg List.reverse h2
      simpa using this.symm
    have hlen : (Nat.digits 10 n).length = 1 := by
      have := congrArg List.length h3
      simpa using this
    obtain ⟨d, hd⟩ := List.length_eq_one.mp hlen
    rw [hd] at h3
    simp only [List.map_cons, List.map_nil, List.cons.injEq] at h3
    have hd10 : d < 10 := hlt2 d (by simp [hd])
    have hd0 : d = 0 := digitChar_inj_of_lt d hd10 0 (by norm_num) h3.1
    have : n = Nat.ofDigits 10 (Nat.digits 10 n) := (Nat.ofDigits_digits 10 n).symm
    rw [hd, hd0] at this
    simp [Nat.ofDigits] at this
    exact hn this
  · exfalso
    rw [if_neg hm, if_pos hn] at h2
    have h3 : (Nat.digits 10 m).map Nat.digitChar = [Nat.digitChar 0] := by
      have := congrArg List.reverse h2
      simpa using this
    have hlen : (Nat.digits 10 m).length = 1 := by
      have := congrArg List.length h3
      simpa using this
    obtain ⟨d, hd⟩ := List.length_eq_one.mp hlen
    rw [hd] at h3
    simp only [List.map_cons, List.map_nil, List.cons.injEq] at h3
    have hd10 : d < 10 := hlt1 d (by simp [hd])
    have hd0 : d = 0 := digitChar_inj_of_lt d hd10 0 (by norm_num) h3.1
    have : m = Nat.ofDigits 10 (Nat.digits 10 m) := (Nat.ofDigits_digits 10 m).symm
    rw [hd, hd0] at this
    simp [Nat.ofDigits] at this
    exact hm this
  · rw [if_neg hm, if_neg hn] at h2
    have h3 := List.reverse_injective h2
    have h4 := map_digitChar_inj _ _ hlt1 hlt2 h3
    exact Nat.digits.injective 10 h4

theorem string_append_left_cancel {a b c : String} (h : a ++ b = a ++ c) : b = c := by
  have h2 := congrArg String.data h
  simp only [String.data_append] at h2
  exact String.ext (List.append_cancel_left h2)

/-- If some candidate `base_j` with `s ≤ j < s + fuel` is free, the probe
loop started at suffix `s` on an already-taken candidate returns the first
free probed candidate. -/
theorem probe_username_first_free (taken : List String) (base : String) :
    ∀ (fuel s : Nat) (c : String), c ∈ taken →
    (∃ j, s ≤ j ∧ j < s + fuel ∧ (base ++ "_" ++ Nat.repr j) ∉ taken) →
    ∃ k, s ≤ k ∧ probe_username taken base fuel s c = base ++ "_" ++ Nat.repr k ∧
      (base ++ "_" ++ Nat.repr k) ∉ taken ∧
      ∀ j, s ≤ j → j < k → (base ++ "_" ++ Nat.repr j) ∈ taken := by
  intro fuel
  induction fuel with
  | zero =>
    intro s c _ hex
    obtain ⟨j, hj1, hj2, _⟩ := hex
    omega
  | succ fuel ih =>
    intro s c hc hex
    simp only [probe_username]
    rw [if_pos hc]
    by_cases hs : (base ++ "_" ++ Nat.repr s) ∈ taken
    · have hex2 : ∃ j, s + 1 ≤ j ∧ j < (s + 1) + fuel ∧
          (base ++ "_" ++ Nat.repr j) ∉ taken := by
        obtain ⟨j, hj1, hj2, hj3⟩ := hex
        have hjs : j ≠ s := by
          intro h
          exact hj3 (h ▸ hs)
        exact ⟨j, by omega, by omega, hj3⟩
      obtain ⟨k, hk1, hk2, hk3, hk4⟩ := ih (s + 1) _ hs hex2
      refine ⟨k, by omega, hk2, hk3, ?_⟩
      intro j hj1 hj2
      rcases Nat.eq_or_lt_of_le hj1 with h | h
      · exact h ▸ hs
      · exact hk4 j h hj2
    · have hret : probe_username taken base fuel (s + 1) (base ++ "_" ++ Nat.repr s)
          = base ++ "_" ++ Nat.repr s := by
        cases fuel with
        | zero => rfl
        | succ f =>
          simp only [probe_username]
          rw [if_neg hs]
      exact ⟨s, Nat.le_refl s, hret, hs, by omega⟩

/-- Pigeonhole: among the `taken.length + 1` pairwise-distinct candidates
`base_1 … base_(taken.length + 1)` at least one is not taken. -/
theorem exists_free_suffix (taken : List String) (base : String) :
    ∃ j, 1 ≤ j ∧ j < 1 + (taken.length + 1) ∧ (base ++ "_" ++ Nat.repr j) ∉ taken := by
  by_contra hcon
  push_neg at hcon
  have hsub : ∀ j ∈ Finset.Icc 1 (taken.length + 1),
      (base ++ "_" ++ Nat.repr j) ∈ taken.toFinset := by
    intro j hj
    rw [Finset.mem_Icc] at hj
    exact List.mem_toFinset.mpr (hcon j hj.1 (by omega))
  have hinj : Set.InjOn (fun j : Nat => base ++ "_" ++ Nat.repr j)
      ↑(Finset.Icc 1 (taken.length + 1)) := by
    intro a _ b _ hab
    have h2 : Nat.repr a = Nat.repr b :=
      string_append_left_cancel (a := base ++ "_") hab
    exact nat_repr_injective h2
  have hcard := Finset.card_le_card_of_injOn _ hsub hinj
  rw [Nat.card_Icc] at hcard
  have hfin := taken.toFinset_card_le
  omega

/-- Characterization of `derive_username` for a nonempty base name: the
base itself when free, otherwise the first free `base_k`, probing
sequentially from `k = 1`. -/
theorem derive_username_spec (taken : List String) (base : String) (hbase : base ≠ "") :
    (base ∉ taken → derive_username taken base = base) ∧
    (base ∈ taken → ∃ k, 1 ≤ k ∧
      derive_username taken base = base ++ "_" ++ Nat.repr k ∧
      (base ++ "_" ++ Nat.repr k) ∉ taken ∧
      ∀ j, 1 ≤ j → j < k → (base ++ "_" ++ Nat.repr j) ∈ taken) := by
  constructor
  · intro hfree
    unfold derive_username
    rw [if_neg hbase]
    simp only [probe_username]
    rw [if_neg hfree]
  · intro htaken
    unfold derive_username
    rw [if_neg hbase]
    exact probe_username_first_free taken base (taken.length + 1) 1 base htaken
      (exists_free_suffix taken base)

/-- A successful registration presupposes both uniqueness checks passed
and appends exactly one user row carrying the normalized email and the
stripped username. -/
theorem register_success_inv (h : String → String) (u e p : String) (c n i : Nat)
    (pic : String) (db : DB) (r : String) (db1 : DB)
    (hreg : register_user h u e p c n i pic db = (.ok r, db1)) :
    ∃ nu : User, db1.users = db.users ++ [nu] ∧
      nu.email = normalizeEmail e ∧ nu.username = pyStrip u ∧ db1.tokens = db.tokens := by
  unfold register_user at hreg
  dsimp only at hreg
  split at hreg
  · exact absurd (congrArg Prod.fst hreg) (by simp)
  · split at hreg
    · exact absurd (congrArg Prod.fst hreg) (by simp)
    · have hdb := congrArg Prod.snd hreg
      dsimp only at hdb
      refine ⟨{ id := i, username := pyStrip u, email := normalizeEmail e,
                hashed_password := some (h p), is_verified := false,
                provider := .«local», verification_code := some c,
                verification_expires_at := some (n + 15),
                profile_image_url := some pic }, ?_, rfl, rfl, ?_⟩
      · rw [← hdb]
      · rw [← hdb]

/-! ### Concrete fixtures used by witnesses and counterexamples -/

/-- A concrete bcrypt stand-in accepting exactly the pair `pw`/`HASH`. -/
def exVerify : String → String → Bool := fun p h => p == "pw" && h == "HASH"

/-- A concrete injective JWT encoder stand-in. -/
def exTok : String → String := fun s => "jwt-" ++ s

/-- A concrete password-hashing stand-in. -/
def exHash : String → String := fun s => "H-" ++ s

/-- A federated (Google) account: passwordless and pre-verified. -/
def gUser : User :=
  { id := 1, username := "gina", email := "g@x.com", hashed_password := none,
    is_verified := true, provider := .google }

/-- Store holding only the Google account. -/
def gDB : DB := { users := [gUser], tokens := [] }

/-- A verified local account whose password hash is `HASH`. -/
def lUser : User :=
  { id := 2, username := "bob", email := "bob@x.com", hashed_password := some ("HASH"),
    is_verified := true, provider := .«local» }

/-- Store holding only the local account, with no refresh tokens. -/
def lDB : DB := { users := [lUser], tokens := [] }

/-- An unverified local account with a stored verification code expiring at 20. -/
def vUser : User :=
  { id := 3, username := "vera", email := "v@x.com", hashed_password := some ("HASH"),
    is_verified := false, provider := .«local»,
    verification_code := some 111111, verification_expires_at := some 20 }

/-- Store holding only the unverified account. -/
def vDB : DB := { users := [vUser], tokens := [] }

/-- A refresh-token row owned by `lUser`, expiring at 50. -/
def rTok : RefreshToken := { user_id := 2, token := "tok", expires_at := 50 }

/-- Store holding the local account and its refresh token. -/
def rDB : DB := { users := [lUser], tokens := [rTok] }

/-- A pending generation job with no image reference. -/
def wJob : Wallpaper :=
  { id := 7, user_id := 2, prompt := "cat", size := "1:1", style := "Anime" }

/-! ### The claims -/

/-- C10: a bearer token that decodes successfully (valid signature, not
expired) but whose payload lacks a non-empty `sub` claim is rejected with
the 401 `Invalid authentication token`; conversely the dependency only
ever returns a non-empty subject, so no authenticated endpoint executes
with an absent subject. -/
theorem get_current_user_requires_sub (decode : String → Except JWTError TokenPayload)
    (token : String) (payload : TokenPayload)
    (hdec : decode token = .ok payload)
    (hsub : payload.sub = none ∨ payload.sub = some "") :
    get_current_user decode token = .error .invalidAuthToken ∧
    ∀ s, get_current_user decode token = .ok s → s ≠ "" ∧ payload.sub = some s := by
  unfold get_current_user
  rw [hdec]
  rcases hsub with h | h <;> simp [h]

/-- Witness for C10 at a concrete decoder returning an empty payload. -/
theorem get_current_user_requires_sub_witness :
    ((fun _ : String => (.ok { sub := none } : Except JWTError TokenPayload)) ("t")
        = .ok { sub := none })
    ∧ (get_current_user (fun _ : String => (.ok { sub := none } : Except JWTError TokenPayload)) ("t")
        = .error .invalidAuthToken
      ∧ ∀ s, get_current_user (fun _ : String => (.ok { sub := none } : Except JWTError TokenPayload)) ("t")
          = .ok s → s ≠ "" ∧ (none : Option String) = some s) :=
  ⟨rfl, get_current_user_requires_sub _ ("t") { sub := none } rfl (Or.inl rfl)⟩

/-- C9: `verify_password` is `false` on an absent hash for every plaintext
and every bcrypt backend, so a passwordless (federated) account fails the
password check of `/login` (whatever the verifier would answer) and of the
authenticated password change, both of which leave the store — in
particular the absent hash — unchanged. -/
theorem passwordless_account_never_authenticates
    (verify : String → String → Bool) (a pwdHash : String → String)
    (e p rv sub old newp : String) (re : Nat) (db : DB) (u v : User)
    (hfind : db.users.find? (fun x => x.email == normalizeEmail e) = some u)
    (hhp : u.hashed_password = none)
    (hfind2 : db.users.find? (fun x => x.email == sub) = some v)
    (hhp2 : v.hashed_password = none) :
    (∀ (w : String → String → Bool) (plain : String), verify_password w plain none = false)
    ∧ login_user verify a e p rv re db = (.error .invalidCredentials, db)
    ∧ (∀ v1 v2 : String → String → Bool,
        login_user v1 a e p rv re db = login_user v2 a e p rv re db)
    ∧ update_password verify pwdHash sub old newp db = (.error .incorrectOldPassword, db) := by
  refine ⟨fun w plain => rfl, login_none_password verify a e p rv re db u hfind hhp, ?_, ?_⟩
  · intro v1 v2
    rw [login_none_password v1 a e p rv re db u hfind hhp,
      login_none_password v2 a e p rv re db u hfind hhp]
  · unfold update_password
    dsimp only
    rw [hfind2]
    simp [verify_password, hhp2]

/-- Witness for C9 at the concrete Google account. -/
theorem passwordless_account_never_authenticates_witness :
    (gDB.users.find? (fun x => x.email == normalizeEmail ("g@x.com")) = some gUser
      ∧ gUser.hashed_password = none)
    ∧ ((∀ (w : String → String → Bool) (plain : String), verify_password w plain none = false)
      ∧ login_user exVerify exTok ("g@x.com") ("pw") ("r1") 9 gDB = (.error .invalidCredentials, gDB)
      ∧ (∀ v1 v2 : String → String → Bool,
          login_user v1 exTok ("g@x.com") ("pw") ("r1") 9 gDB
            = login_user v2 exTok ("g@x.com") ("pw") ("r1") 9 gDB)
      ∧ update_password exVerify exHash ("g@x.com") ("old") ("NewPass1") gDB
          = (.error .incorrectOldPassword, gDB)) :=
  ⟨⟨by decide, rfl⟩,
   passwordless_account_never_authenticates exVerify exTok exHash ("g@x.com") ("pw") ("r1")
     ("g@x.com") ("old") ("NewPass1") 9 gDB gUser gUser (by decide) rfl (by decide) rfl⟩

/-- C8: verifying an already-verified account returns the no-op success
message and leaves the store — hence the whole user row, in particular its
`verification_code` — unchanged. -/
theorem verify_email_idempotent_on_verified (e : String) (c now : Nat) (db : DB) (u : User)
    (hfind : db.users.find? (fun x => x.email == normalizeEmail e) = some u)
    (hver : u.is_verified = true) :
    verify_email e c now db = (.ok ("Email already verified"), db) := by
  unfold verify_email
  dsimp only
  rw [hfind]
  simp [hver]

/-- Witness for C8 at the concrete verified account. -/
theorem verify_email_idempotent_on_verified_witness :
    (lDB.users.find? (fun x => x.email == normalizeEmail ("bob@x.com")) = some lUser
      ∧ lUser.is_verified = true)
    ∧ verify_email ("bob@x.com") 123456 0 lDB = (.ok ("Email already verified"), lDB) :=
  ⟨⟨by decide, rfl⟩,
   verify_email_idempotent_on_verified ("bob@x.com") 123456 0 lDB lUser (by decide) rfl⟩

/-- C4: refreshing fails with the 401 `Invalid refresh token` when no
stored row matches the submitted value, fails with the 401 `Expired
refresh token` when the matching row's expiry is strictly in the past,
and on success returns a fresh access token for the owning user's email
together with the very same refresh-token value; the store is returned
unchanged on every path (no rotation, no modification). -/
theorem refresh_access_token_spec (a : String → String) (v : String) (now : Nat) (db : DB) :
    (db.tokens.find? (fun t => t.token == v) = none →
      refresh_access_token a v now db = (.error .invalidRefreshToken, db))
    ∧ (∀ rt, db.tokens.find? (fun t => t.token == v) = some rt →
        rt.expires_at < now →
        refresh_access_token a v now db = (.error .expiredRefreshToken, db))
    ∧ (∀ rt u, db.tokens.find? (fun t => t.token == v) = some rt →
        ¬ rt.expires_at < now →
        db.users.find? (fun x => x.id == rt.user_id) = some u →
        refresh_access_token a v now db =
          (.ok { access_token := a u.email, refresh_token := v }, db))
    ∧ (refresh_access_token a v now db).2 = db := by
  refine ⟨?_, ?_, ?_, refresh_state_eq a v now db⟩
  · intro hfind
    unfold refresh_access_token
    rw [hfind]
  · intro rt hfind hexp
    unfold refresh_access_token
    rw [hfind]
    simp [hexp]
  · intro rt u hfind hexp hfu
    unfold refresh_access_token
    rw [hfind]
    simp [hexp, hfu]

/-- Witness for C4: the stored token expired at 50 and it is now 100. -/
theorem refresh_access_token_spec_witness :
    (rDB.tokens.find? (fun t => t.token == ("tok")) = some rTok ∧ rTok.expires_at < 100)
    ∧ refresh_access_token exTok ("tok") 100 rDB = (.error .expiredRefreshToken, rDB) :=
  ⟨⟨by decide, by decide⟩,
   (refresh_access_token_spec exTok ("tok") 100 rDB).2.1 rTok (by decide) (by decide)⟩

theorem find?_append_right (p : α → Bool) (l1 l2 : List α)
    (h : ∀ x ∈ l1, p x = false) : (l1 ++ l2).find? p = l2.find? p := by
  induction l1 with
  | nil => rfl
  | cons x xs ih =>
    have hx := h x (List.mem_cons_self x xs)
    simp only [List.cons_append, List.find?_cons, hx]
    exact ih (fun y hy => h y (List.mem_cons_of_mem x hy))

/-- C5: the background generation step run on a pending job is a total
function of the provider outcome (no exception escapes): on a raised
exception or a malformed (falsy or non-list) provider response the job is
marked `failed`, its image reference stays absent, and the content store
is untouched; on provider success the bytes are stored under the fresh
unique name, the job's image reference is set to that name and its status
to `completed`; in every case the job leaves `pending`. -/
theorem generate_wallpaper_image_spec (wid : Nat) (outcome : ProviderOutcome)
    (freshName : String) (jobs : List Wallpaper) (store : List (String × List Nat))
    (w : Wallpaper)
    (hfind : jobs.find? (fun x => x.id == wid) = some w)
    (hpend : w.status = .pending)
    (himg : w.image_url = none)
    (hfresh : ∀ pr ∈ store, pr.1 ≠ freshName) :
    ((outcome = .exn ∨ outcome = .notList) →
      (∃ w2, (generate_wallpaper_image wid outcome freshName jobs store).1.find?
          (fun x => x.id == wid) = some w2 ∧ w2.status = .failed ∧ w2.image_url = none)
      ∧ (generate_wallpaper_image wid outcome freshName jobs store).2 = store)
    ∧ (∀ bytes, outcome = .ok bytes →
      ∃ w2, (generate_wallpaper_image wid outcome freshName jobs store).1.find?
          (fun x => x.id == wid) = some w2 ∧ w2.status = .completed ∧
        w2.image_url = some freshName ∧
        (generate_wallpaper_image wid outcome freshName jobs store).2.find?
          (fun pr => pr.1 == freshName) = some (freshName, bytes))
    ∧ (∀ w2, (generate_wallpaper_image wid outcome freshName jobs store).1.find?
        (fun x => x.id == wid) = some w2 → w2.status ≠ .pending) := by
  refine ⟨?_, ?_, ?_⟩
  · rintro (h | h) <;> subst h <;>
      (unfold generate_wallpaper_image
       rw [hfind]
       dsimp only
       rw [find?_updateFirst (fun y => y.id == wid)
         (fun v => { v with status := WallpaperStatusEnum.failed }) (fun x hx => hx) jobs,
         hfind]
       exact ⟨⟨_, rfl, rfl, himg⟩, rfl⟩)
  · intro bytes h
    subst h
    unfold generate_wallpaper_image
    rw [hfind]
    dsimp only
    rw [find?_updateFirst (fun y => y.id == wid)
      (fun v => { v with image_url := some freshName,
                         status := WallpaperStatusEnum.completed }) (fun x hx => hx) jobs,
      hfind]
    refine ⟨_, rfl, rfl, rfl, ?_⟩
    rw [find?_append_right]
    · simp
    · intro x hx
      simpa using hfresh x hx
  · intro w2 h2
    unfold generate_wallpaper_image at h2
    rw [hfind] at h2
    cases outcome with
    | exn =>
      dsimp only at h2
      rw [find?_updateFirst (fun y => y.id == wid)
        (fun v => { v with status := WallpaperStatusEnum.failed }) (fun x hx => hx) jobs,
        hfind] at h2
      injection h2 with h3
      subst h3
      simp
    | notList =>
      dsimp only at h2
      rw [find?_updateFirst (fun y => y.id == wid)
        (fun v => { v with status := WallpaperStatusEnum.failed }) (fun x hx => hx) jobs,
        hfind] at h2
      injection h2 with h3
      subst h3
      simp
    | ok bytes =>
      dsimp only at h2
      rw [find?_updateFirst (fun y => y.id == wid)
        (fun v => { v with image_url := some freshName,
                           status := WallpaperStatusEnum.completed }) (fun x hx => hx) jobs,
        hfind] at h2
      injection h2 with h3
      subst h3
      simp

/-- Witness for C5: concrete pending job, provider raises. -/
theorem generate_wallpaper_image_spec_witness :
    ([wJob].find? (fun x => x.id == 7) = some wJob ∧ wJob.status = .pending
      ∧ wJob.image_url = none)
    ∧ ((ProviderOutcome.exn = ProviderOutcome.exn ∨ ProviderOutcome.exn = ProviderOutcome.notList) →
      (∃ w2, (generate_wallpaper_image 7 .exn ("f.webp") [wJob] []).1.find?
          (fun x => x.id == 7) = some w2 ∧ w2.status = .failed ∧ w2.image_url = none)
      ∧ (generate_wallpaper_image 7 .exn ("f.webp") [wJob] []).2 = []) :=
  ⟨⟨by decide, rfl, rfl⟩,
   (generate_wallpaper_image_spec 7 .exn ("f.webp") [wJob] [] wJob (by decide) rfl rfl
     (by simp)).1⟩

/-- C3: for an unverified account found by the normalized email, code
validation succeeds iff a code is stored, the submission equals it
exactly, and `now ≤ expiry` (for a stored expiry); otherwise the single
`Invalid or expired verification code` error is returned with the store
unchanged. -/
theorem verify_email_code_validation (e : String) (c now : Nat) (db : DB) (u : User)
    (hfind : db.users.find? (fun x => x.email == normalizeEmail e) = some u)
    (hunver : u.is_verified = false) :
    ((verify_email e c now db).1 = .ok ("Email verified successfully") ↔
      (u.verification_code = some c ∧ ∃ exp, u.verification_expires_at = some exp ∧ now ≤ exp))
    ∧ (¬ (u.verification_code = some c ∧ ∃ exp, u.verification_expires_at = some exp ∧ now ≤ exp) →
      verify_email e c now db = (.error .invalidOrExpiredCode, db)) := by
  have hb : ((u.verification_code != some c) || u.verification_expires_at.isNone ||
      (match u.verification_expires_at with
       | none => true
       | some exp => decide (now > exp))) = false ↔
      (u.verification_code = some c ∧ ∃ exp, u.verification_expires_at = some exp ∧ now ≤ exp) := by
    rcases hvc : u.verification_code with _ | vc <;>
      rcases hexp : u.verification_expires_at with _ | exp <;>
      simp [hvc, hexp] <;>
      omega
  unfold verify_email
  dsimp only
  rw [hfind]
  dsimp only
  rw [hunver]
  rw [if_neg (by simp)]
  split
  · rename_i hcond
    have hnot : ¬ (u.verification_code = some c ∧
        ∃ exp, u.verification_expires_at = some exp ∧ now ≤ exp) := by
      intro hyes
      rw [hb.mpr hyes] at hcond
      exact absurd hcond (by simp)
    constructor
    · constructor
      · intro habs
        exact absurd habs (by simp)
      · intro hyes
        exact absurd hyes hnot
    · intro _
      rfl
  · rename_i hcond
    have hyes : u.verification_code = some c ∧
        ∃ exp, u.verification_expires_at = some exp ∧ now ≤ exp :=
      hb.mp (by rwa [Bool.not_eq_true] at hcond)
    constructor
    · exact iff_of_true rfl hyes
    · intro hn
      exact absurd hyes hn

/-- Witness for C3 at the concrete unverified account, with the matching
code submitted exactly at the stored expiry instant. -/
theorem verify_email_code_validation_witness :
    (vDB.users.find? (fun x => x.email == normalizeEmail ("v@x.com")) = some vUser
      ∧ vUser.is_verified = false)
    ∧ (((verify_email ("v@x.com") 111111 20 vDB).1 = .ok ("Email verified successfully") ↔
        (vUser.verification_code = some 111111
          ∧ ∃ exp, vUser.verification_expires_at = some exp ∧ 20 ≤ exp))
      ∧ (¬ (vUser.verification_code = some 111111
          ∧ ∃ exp, vUser.verification_expires_at = some exp ∧ 20 ≤ exp) →
        verify_email ("v@x.com") 111111 20 vDB = (.error .invalidOrExpiredCode, vDB))) :=
  ⟨⟨by decide, rfl⟩,
   verify_email_code_validation ("v@x.com") 111111 20 vDB vUser (by decide) rfl⟩

/-- C7: after a successful registration, a second signup with the same
email in any letter case, or with the same username, fails with one of
the two duplicate (`Conflict`) errors and leaves the store unchanged (no
new user row). -/
theorem register_duplicate_conflict (h1f h2f : String → String)
    (u1 e1 p1 : String) (c1 n1 i1 : Nat) (pic1 : String)
    (u2 e2 p2 : String) (c2 n2 i2 : Nat) (pic2 : String)
    (db : DB) (r : String) (db1 : DB)
    (hreg : register_user h1f u1 e1 p1 c1 n1 i1 pic1 db = (.ok r, db1))
    (hdup : pyLower e2 = pyLower e1 ∨ u2 = u1) :
    ∃ err, register_user h2f u2 e2 p2 c2 n2 i2 pic2 db1 = (.error err, db1) ∧
      (err = AuthError.emailTaken ∨ err = AuthError.usernameTaken) := by
  obtain ⟨nu, husers, hemail, huname, _⟩ :=
    register_success_inv h1f u1 e1 p1 c1 n1 i1 pic1 db r db1 hreg
  have hmem : nu ∈ db1.users := by
    rw [husers]
    simp
  unfold register_user
  dsimp only
  rcases hdup with hdupe | hdupu
  · have hnorm : normalizeEmail e2 = normalizeEmail e1 := by
      unfold normalizeEmail
      rw [hdupe]
    have hp : (nu.email == normalizeEmail e2) = true := by
      rw [hemail, hnorm]
      simp
    have hsome : (db1.users.find? (fun x => x.email == normalizeEmail e2)).isSome = true := by
      rcases hfs : db1.users.find? (fun x => x.email == normalizeEmail e2) with _ | x
      · exact absurd hp (by simpa using List.find?_eq_none.mp hfs nu hmem)
      · simp [hfs]
    rw [if_pos hsome]
    exact ⟨.emailTaken, rfl, Or.inl rfl⟩
  · by_cases hes : (db1.users.find? (fun x => x.email == normalizeEmail e2)).isSome = true
    · rw [if_pos hes]
      exact ⟨.emailTaken, rfl, Or.inl rfl⟩
    · rw [if_neg hes]
      have hp : (nu.username == pyStrip u2) = true := by
        rw [huname, hdupu]
        simp
      have hsome : (db1.users.find? (fun x => x.username == pyStrip u2)).isSome = true := by
        rcases hfs : db1.users.find? (fun x => x.username == pyStrip u2) with _ | x
        · exact absurd hp (by simpa using List.find?_eq_none.mp hfs nu hmem)
        · simp [hfs]
      rw [if_pos hsome]
      exact ⟨.usernameTaken, rfl, Or.inr rfl⟩

/-- Witness for C7: register `bob` into the empty store, then attempt a
second signup with the same email in different letter case. -/
theorem register_duplicate_conflict_witness :
    (register_user exHash ("bob") ("bob@x.com") ("Pass1234") 111111 0 2 ("p.png")
        { users := [], tokens := [] }
      = (.ok ("User registered successfully. Please check your email for the 6-digit code."),
         (register_user exHash ("bob") ("bob@x.com") ("Pass1234") 111111 0 2 ("p.png")
           { users := [], tokens := [] }).2)
      ∧ (pyLower ("BOB@X.com") = pyLower ("bob@x.com") ∨ ("zed" : String) = "bob"))
    ∧ ∃ err, register_user exHash ("zed") ("BOB@X.com") ("Pass5678") 222222 5 3 ("q.png")
        (register_user exHash ("bob") ("bob@x.com") ("Pass1234") 111111 0 2 ("p.png")
          { users := [], tokens := [] }).2
      = (.error err,
         (register_user exHash ("bob") ("bob@x.com") ("Pass1234") 111111 0 2 ("p.png")
           { users := [], tokens := [] }).2) ∧
      (err = AuthError.emailTaken ∨ err = AuthError.usernameTaken) :=
  ⟨⟨rfl, Or.inl (by decide)⟩,
   register_duplicate_conflict exHash exHash ("bob") ("bob@x.com") ("Pass1234") 111111 0 2
     ("p.png") ("zed") ("BOB@X.com") ("Pass5678") 222222 5 3 ("q.png")
     { users := [], tokens := [] } _ _ rfl (Or.inl (by decide))⟩

/-- C1 (counterexample): for the stored Google account (passwordless, as
auto-provisioning creates it), `/login` does NOT fail with the
provider-mismatch error — the credential check (`not
user.hashed_password`) raises `Invalid email or password` first, so the
claim "an attempt at /login … fails with the ProviderMismatch error" is
false at this input. -/
theorem google_login_not_provider_mismatch :
    gUser ∈ gDB.users ∧ gUser.provider = .google ∧
    (login_user exVerify exTok ("g@x.com") ("pw") ("r1") 9 gDB).1
      = .error .invalidCredentials ∧
    (login_user exVerify exTok ("g@x.com") ("pw") ("r1") 9 gDB).1
      ≠ .error .providerMismatch :=
  ⟨by decide, rfl, rfl, by decide⟩

/-- C1 (amended): for every stored Google account (whose password hash is
absent), `/login` fails with the invalid-credentials error — the null
password hash fails the credential check before the provider check is
reached — while `/forgot-password` fails with the provider-mismatch
error; neither request consults the hash verifier (the login outcome is
identical for every verifier), and the store is unchanged. -/
theorem google_user_login_forgot_behaviour (verify : String → String → Bool)
    (a : String → String) (e p rv : String) (re rc now : Nat) (db : DB) (u : User)
    (hfind : db.users.find? (fun x => x.email == normalizeEmail e) = some u)
    (hprov : u.provider = .google)
    (hhp : u.hashed_password = none) :
    login_user verify a e p rv re db = (.error .invalidCredentials, db)
    ∧ (∀ v1 v2 : String → String → Bool,
        login_user v1 a e p rv re db = login_user v2 a e p rv re db)
    ∧ forgot_password e rc now db = (.error .providerMismatch, db) := by
  refine ⟨login_none_password verify a e p rv re db u hfind hhp, ?_,
    forgot_password_google e rc now db u hfind hprov⟩
  intro v1 v2
  rw [login_none_password v1 a e p rv re db u hfind hhp,
    login_none_password v2 a e p rv re db u hfind hhp]

/-- Witness for the amended C1 at the concrete Google account. -/
theorem google_user_login_forgot_behaviour_witness :
    (gDB.users.find? (fun x => x.email == normalizeEmail ("g@x.com")) = some gUser
      ∧ gUser.provider = .google ∧ gUser.hashed_password = none)
    ∧ (login_user exVerify exTok ("g@x.com") ("pw") ("r1") 9 gDB
        = (.error .invalidCredentials, gDB)
      ∧ (∀ v1 v2 : String → String → Bool,
          login_user v1 exTok ("g@x.com") ("pw") ("r1") 9 gDB
            = login_user v2 exTok ("g@x.com") ("pw") ("r1") 9 gDB)
      ∧ forgot_password ("g@x.com") 654321 7 gDB = (.error .providerMismatch, gDB)) :=
  ⟨⟨by decide, rfl, rfl⟩,
   google_user_login_forgot_behaviour exVerify exTok ("g@x.com") ("pw") ("r1") 9 654321 7
     gDB gUser (by decide) rfl rfl⟩

/-- An existing user holding the username `alice`. -/
def aliceUser : User :=
  { id := 11, username := "alice", email := "a1@x.com", hashed_password := some ("H"),
    is_verified := true, provider := .«local» }

/-- An existing user holding the username `alice_1`. -/
def aliceUser1 : User :=
  { id := 12, username := "alice_1", email := "a2@x.com", hashed_password := some ("H"),
    is_verified := true, provider := .«local» }

/-- Store with usernames `alice` and `alice_1` already taken. -/
def aliceDB : DB := { users := [aliceUser, aliceUser1], tokens := [] }

/-- C6: during federated auto-provisioning the derived username is the
(nonempty) base name itself when free, and otherwise the first free
candidate among `base_1, base_2, …`, probed sequentially from suffix 1;
in particular with existing usernames `alice` and `alice_1` a federated
signup with base name `alice` provisions `alice_2`, shown both on the
derivation and end-to-end through `google_sign_in`. -/
theorem federated_username_derivation (taken : List String) (base : String)
    (hbase : base ≠ "") :
    (base ∉ taken → derive_username taken base = base)
    ∧ (base ∈ taken → ∃ k, 1 ≤ k ∧
        derive_username taken base = base ++ "_" ++ Nat.repr k ∧
        (base ++ "_" ++ Nat.repr k) ∉ taken ∧
        ∀ j, 1 ≤ j → j < k → (base ++ "_" ++ Nat.repr j) ∈ taken)
    ∧ derive_username ["alice", "alice_1"] "alice" = "alice_2"
    ∧ (google_sign_in exTok (some { iss := "accounts.google.com", email := "new@x.com" })
        (some ("alice")) none 13 ("r9") 99 aliceDB).2.users.map User.username
      = ["alice", "alice_1", "alice_2"] :=
  ⟨(derive_username_spec taken base hbase).1,
   (derive_username_spec taken base hbase).2,
   by decide,
   by decide⟩

/-- Witness for C6 at the colliding base name `alice`. -/
theorem federated_username_derivation_witness :
    (("alice" : String) ≠ "" ∧ ("alice" : String) ∈ ["alice", "alice_1"])
    ∧ ∃ k, 1 ≤ k ∧
        derive_username ["alice", "alice_1"] "alice" = "alice" ++ "_" ++ Nat.repr k ∧
        ("alice" ++ "_" ++ Nat.repr k) ∉ ["alice", "alice_1"] ∧
        ∀ j, 1 ≤ j → j < k → ("alice" ++ "_" ++ Nat.repr j) ∈ ["alice", "alice_1"] :=
  ⟨⟨by decide, by decide⟩,
   (federated_username_derivation ["alice", "alice_1"] "alice" (by decide)).2.1 (by decide)⟩

/-- C2: every route transition (hence any sequence of operations)
preserves the at-most-one-refresh-token-per-user invariant; a second
successful login by the same user succeeds, adds no row (the token table
keeps its length), leaves the user with exactly one token whose value is
the second fresh value (the first value is overwritten, not appended),
and a subsequent refresh with the first value fails with the 401
`Invalid refresh token`. -/
theorem refresh_token_replacement (verify : String → String → Bool)
    (a : String → String) (e p v1 v2 : String) (re1 re2 now2 : Nat)
    (db0 : DB) (u : User) (hp : String)
    (hinv : atMostOneTokenPerUser db0)
    (hfind : db0.users.find? (fun x => x.email == normalizeEmail e) = some u)
    (hhp : u.hashed_password = some hp) (hne : hp ≠ "")
    (hverify : verify p hp = true)
    (hprov : u.provider = .«local») (hver : u.is_verified = true)
    (hfresh : ∀ t ∈ db0.tokens, t.token ≠ v1)
    (hv12 : v1 ≠ v2) :
    (∀ dba dbb : DB, Step dba dbb → atMostOneTokenPerUser dba → atMostOneTokenPerUser dbb)
    ∧ (∀ dba dbb : DB, Relation.ReflTransGen Step dba dbb →
        atMostOneTokenPerUser dba → atMostOneTokenPerUser dbb)
    ∧ ((login_user verify a e p v2 re2 (login_user verify a e p v1 re1 db0).2).1
        = .ok { access_token := a u.email, refresh_token := v2 })
    ∧ ((login_user verify a e p v2 re2 (login_user verify a e p v1 re1 db0).2).2.tokens.length
        = (login_user verify a e p v1 re1 db0).2.tokens.length)
    ∧ (∀ t ∈ (login_user verify a e p v2 re2 (login_user verify a e p v1 re1 db0).2).2.tokens,
        t.user_id = u.id → t.token = v2)
    ∧ tokenCount (login_user verify a e p v2 re2 (login_user verify a e p v1 re1 db0).2).2 u.id = 1
    ∧ (refresh_access_token a v1 now2
        (login_user verify a e p v2 re2 (login_user verify a e p v1 re1 db0).2).2).1
      = .error .invalidRefreshToken := by
  have hlogin1 := login_success verify a e p v1 re1 db0 u hp hfind hhp hne hverify hprov hver
  set db1 := (login_user verify a e p v1 re1 db0).2 with hdb1
  have hdb1eq : db1 = { db0 with tokens := replaceRefreshToken db0.tokens u.id v1 re1 } := by
    rw [hdb1, hlogin1]
  have husers1 : db1.users = db0.users := by
    rw [hdb1eq]
  have hfind1 : db1.users.find? (fun x => x.email == normalizeEmail e) = some u := by
    rw [husers1]
    exact hfind
  have hlogin2 := login_success verify a e p v2 re2 db1 u hp hfind1 hhp hne hverify hprov hver
  have hinv1 : atMostOneTokenPerUser db1 := by
    rw [hdb1]
    exact step_preserves_atMostOneToken db0 _ (Step.login verify a e p v1 re1 db0) hinv
  set db2 := (login_user verify a e p v2 re2 db1).2 with hdb2
  have hdb2eq : db2 = { db1 with tokens := replaceRefreshToken db1.tokens u.id v2 re2 } := by
    rw [hdb2, hlogin2]
  have htok1 : db1.tokens = replaceRefreshToken db0.tokens u.id v1 re1 := by
    rw [hdb1eq]
  have htok2 : db2.tokens = replaceRefreshToken db1.tokens u.id v2 re2 := by
    rw [hdb2eq]
  have hinv2 : atMostOneTokenPerUser db2 := by
    rw [hdb2]
    exact step_preserves_atMostOneToken db1 _ (Step.login verify a e p v2 re2 db1) hinv1
  obtain ⟨t1, ht1mem, ht1uid, ht1tok⟩ := exists_replaceRefreshToken db0.tokens u.id v1 re1
  have ht1mem1 : t1 ∈ db1.tokens := by
    rw [htok1]
    exact ht1mem
  obtain ⟨rt1, hrt1⟩ : ∃ rt, db1.tokens.find? (fun t => t.user_id == u.id) = some rt := by
    rcases hfs : db1.tokens.find? (fun t => t.user_id == u.id) with _ | rt
    · have := List.find?_eq_none.mp hfs t1 ht1mem1
      simp [ht1uid] at this
    · exact ⟨rt, hfs⟩
  have hlen : db2.tokens.length = db1.tokens.length := by
    rw [htok2]
    exact length_replaceRefreshToken_of_found db1.tokens u.id v2 re2 rt1 hrt1
  have hmem2 : ∀ t ∈ db2.tokens, (t ∈ db1.tokens ∧ t.user_id ≠ u.id) ∨
      (t.user_id = u.id ∧ t.token = v2 ∧ t.expires_at = re2) := by
    intro t ht
    rw [htok2] at ht
    exact mem_replaceRefreshToken db1.tokens u.id v2 re2 (hinv1 u.id) t ht
  have hmem1 : ∀ t ∈ db1.tokens, (t ∈ db0.tokens ∧ t.user_id ≠ u.id) ∨
      (t.user_id = u.id ∧ t.token = v1 ∧ t.expires_at = re1) := by
    intro t ht
    rw [htok1] at ht
    exact mem_replaceRefreshToken db0.tokens u.id v1 re1 (hinv u.id) t ht
  have hover : ∀ t ∈ db2.tokens, t.user_id = u.id → t.token = v2 := by
    intro t ht huid
    rcases hmem2 t ht with ⟨_, hne2⟩ | ⟨_, htokv, _⟩
    · exact absurd huid hne2
    · exact htokv
  obtain ⟨t2, ht2mem, ht2uid, ht2tok⟩ := exists_replaceRefreshToken db1.tokens u.id v2 re2
  have ht2mem2 : t2 ∈ db2.tokens := by
    rw [htok2]
    exact ht2mem
  have hcount : tokenCount db2 u.id = 1 := by
    have hle := hinv2 u.id
    have hpos : 0 < tokenCount db2 u.id := by
      unfold tokenCount
      rw [List.countP_pos_iff]
      exact ⟨t2, ht2mem2, by simp [ht2uid]⟩
    omega
  have hnone : db2.tokens.find? (fun t => t.token == v1) = none := by
    rw [List.find?_eq_none]
    intro t ht
    rcases hmem2 t ht with ⟨htin1, hneid⟩ | ⟨_, htokv, _⟩
    · rcases hmem1 t htin1 with ⟨ht0, _⟩ | ⟨hid, _, _⟩
      · simpa using hfresh t ht0
      · exact absurd hid hneid
    · intro hbeq
      rw [beq_iff_eq] at hbeq
      exact hv12 (hbeq.symm.trans htokv)
  have hrefresh : (refresh_access_token a v1 now2 db2).1 = .error .invalidRefreshToken := by
    unfold refresh_access_token
    rw [hnone]
  exact ⟨fun dba dbb hs hi => step_preserves_atMostOneToken dba dbb hs hi,
    fun dba dbb hs hi => steps_preserve_atMostOneToken dba dbb hs hi,
    congrArg Prod.fst hlogin2, hlen, hover, hcount, hrefresh⟩

/-- Witness for C2: two logins of `bob` with fresh values `r1` then `r2`
into a store with no tokens. -/
theorem refresh_token_replacement_witness :
    (atMostOneTokenPerUser lDB
      ∧ lDB.users.find? (fun x => x.email == normalizeEmail ("bob@x.com")) = some lUser
      ∧ lUser.hashed_password = some ("HASH") ∧ ("HASH" : String) ≠ ""
      ∧ exVerify ("pw") ("HASH") = true
      ∧ lUser.provider = .«local» ∧ lUser.is_verified = true
      ∧ (∀ t ∈ lDB.tokens, t.token ≠ "r1") ∧ ("r1" : String) ≠ "r2")
    ∧ ((∀ dba dbb : DB, Step dba dbb → atMostOneTokenPerUser dba → atMostOneTokenPerUser dbb)
      ∧ (∀ dba dbb : DB, Relation.ReflTransGen Step dba dbb →
          atMostOneTokenPerUser dba → atMostOneTokenPerUser dbb)
      ∧ ((login_user exVerify exTok ("bob@x.com") ("pw") ("r2") 20
            (login_user exVerify exTok ("bob@x.com") ("pw") ("r1") 10 lDB).2).1
          = .ok { access_token := exTok lUser.email, refresh_token := "r2" })
      ∧ ((login_user exVerify exTok ("bob@x.com") ("pw") ("r2") 20
            (login_user exVerify exTok ("bob@x.com") ("pw") ("r1") 10 lDB).2).2.tokens.length
          = (login_user exVerify exTok ("bob@x.com") ("pw") ("r1") 10 lDB).2.tokens.length)
      ∧ (∀ t ∈ (login_user exVerify exTok ("bob@x.com") ("pw") ("r2") 20
            (login_user exVerify exTok ("bob@x.com") ("pw") ("r1") 10 lDB).2).2.tokens,
          t.user_id = lUser.id → t.token = "r2")
      ∧ tokenCount (login_user exVerify exTok ("bob@x.com") ("pw") ("r2") 20
          (login_user exVerify exTok ("bob@x.com") ("pw") ("r1") 10 lDB).2).2 lUser.id = 1
      ∧ (refresh_access_token exTok ("r1") 5
          (login_user exVerify exTok ("bob@x.com") ("pw") ("r2") 20
            (login_user exVerify exTok ("bob@x.com") ("pw") ("r1") 10 lDB).2).2).1
        = .error .invalidRefreshToken) :=
  ⟨⟨fun _ => Nat.zero_le 1, by decide, rfl, by decide, rfl, rfl, rfl, by simp [lDB], by decide⟩,
   refresh_token_replacement exVerify exTok ("bob@x.com") ("pw") ("r1") ("r2") 10 20 5 lDB
     lUser ("HASH") (fun _ => Nat.zero_le 1) (by decide) rfl (by decide) rfl rfl rfl
     (by simp [lDB]) (by decide)⟩
